import Mathlib

/-!
Verification development for the telemetry WebSocket client
(`src/frontend/src/hooks/useTelemetryWebsocket.ts`).

The hook is shallowly embedded: JavaScript runtime values that the hook
manipulates are modelled by the inductive `JSVal`; the hook's closure state
(React refs and state setters) is modelled by the record `HookState`; each
event handler (`ws.onopen`, `ws.onmessage`, `ws.onerror`, `ws.onclose`),
`connectWebSocket`, `cleanupWebSocket`, `disconnectWebSocket`,
`manualReconnect` and the pending-timer firings are modelled as pure
transition functions on `HookState`.
-/

namespace TelemetryWS

/-- JavaScript runtime values as far as the hook observes them.
`blob` and `buffer` model `Blob` and `ArrayBuffer` payloads, each carrying
the UTF-8 text content that `Blob.text()` / `TextDecoder("utf-8").decode`
would produce.  `undef` is JavaScript `undefined` (e.g. a missing object
property). -/
inductive JSVal where
  | str : String → JSVal
  | num : Int → JSVal
  | bool : Bool → JSVal
  | null : JSVal
  | undef : JSVal
  | obj : List (String × JSVal) → JSVal
  | arr : List JSVal → JSVal
  | blob : String → JSVal
  | buffer : String → JSVal

/-- JavaScript truthiness of a value (`if (x)`): empty string, `0`, `false`,
`null` and `undefined` are falsy; every object (including `Blob` and
`ArrayBuffer` instances, plain objects and arrays) is truthy. -/
def truthy : JSVal → Bool
  | JSVal.str s => !(s == "")
  | JSVal.num n => !(n == 0)
  | JSVal.bool b => b
  | JSVal.null => false
  | JSVal.undef => false
  | JSVal.obj _ => true
  | JSVal.arr _ => true
  | JSVal.blob _ => true
  | JSVal.buffer _ => true

/-- JavaScript strict equality `v === s` against a string literal: true only
when `v` is a string with the same characters (objects are never `===` to a
string). -/
def isStr : JSVal → String → Bool
  | JSVal.str t, s => t == s
  | _, _ => false

/-- Property lookup in an object literal's field list.  JSON objects with a
duplicated key keep the last binding, hence the reversed search.  A missing
key reads as `undefined`. -/
def lookupField (fields : List (String × JSVal)) (key : String) : JSVal :=
  match fields.reverse.find? (fun p => p.1 == key) with
  | some p => p.2
  | none => JSVal.undef

/-- Optional-chained property access `v?.key`, for the two properties the
hook reads (`"type"` and `"data"`).  On `null`/`undefined` optional chaining
yields `undefined`; a `Blob` exposes a `type` property holding its MIME type,
which is the empty string for WebSocket-delivered blobs; strings, numbers,
booleans, arrays and `ArrayBuffer`s have neither property. -/
def jsOptGet : JSVal → String → JSVal
  | JSVal.obj fields, key => lookupField fields key
  | JSVal.blob _, key => if key == "type" then JSVal.str "" else JSVal.undef
  | _, _ => JSVal.undef

/- ### A model of `JSON.parse`

`JSON.parse` is the host platform's JSON reader.  It is modelled here by a
fuel-indexed recursive-descent reader over the character list.  Restrictions
of the model (none of which the verified claims depend on): numbers are
restricted to (optionally signed) integer literals, `\u` string escapes are
not supported, and leading-zero integers are accepted. -/

/-- The two brace characters, kept as named constants. -/
def lbrace : Char := Char.ofNat 123

def rbrace : Char := Char.ofNat 125

/-- Skip JSON whitespace. -/
def skipWs : List Char → List Char
  | c :: cs =>
    if c = ' ' ∨ c = '\t' ∨ c = '\n' ∨ c = '\r' then skipWs cs else c :: cs
  | [] => []

/-- Read the remainder of a string literal (the opening quote already
consumed), processing the single-character escapes. -/
def parseStrAux : List Char → String → Option (String × List Char)
  | [], _ => none
  | c :: cs, acc =>
    if c = '"' then some (acc, cs)
    else if c = '\\' then
      match cs with
      | [] => none
      | e :: cs2 =>
        if e = '"' then parseStrAux cs2 (acc.push '"')
        else if e = '\\' then parseStrAux cs2 (acc.push '\\')
        else if e = '/' then parseStrAux cs2 (acc.push '/')
        else if e = 'n' then parseStrAux cs2 (acc.push '\n')
        else if e = 't' then parseStrAux cs2 (acc.push '\t')
        else if e = 'r' then parseStrAux cs2 (acc.push '\r')
        else if e = 'b' then parseStrAux cs2 (acc.push (Char.ofNat 8))
        else if e = 'f' then parseStrAux cs2 (acc.push (Char.ofNat 12))
        else none
    else parseStrAux cs (acc.push c)

/-- Accumulate decimal digits. -/
def digitsAux : List Char → Nat → Nat × List Char
  | c :: cs, acc =>
    if c.isDigit then digitsAux cs (acc * 10 + (c.toNat - 48)) else (acc, c :: cs)
  | [], acc => (acc, [])

/-- Read a nonempty run of decimal digits. -/
def parseNumber : List Char → Option (Nat × List Char)
  | c :: cs => if c.isDigit then some (digitsAux cs (c.toNat - 48)) else none
  | [] => none

/-- Reader mode: a single value, the tail of an array, or the tail of an
object. -/
inductive PMode where
  | val : PMode
  | elems : List JSVal → PMode
  | members : List (String × JSVal) → PMode

/-- Fuel-indexed JSON reader.  Every recursive call decreases the fuel, so
the function is structurally recursive and kernel-evaluable. -/
def parseCore : Nat → PMode → List Char → Option (JSVal × List Char)
  | 0, _, _ => none
  | fuel + 1, PMode.val, cs =>
    (match skipWs cs with
     | 'n' :: 'u' :: 'l' :: 'l' :: rest => some (JSVal.null, rest)
     | 't' :: 'r' :: 'u' :: 'e' :: rest => some (JSVal.bool true, rest)
     | 'f' :: 'a' :: 'l' :: 's' :: 'e' :: rest => some (JSVal.bool false, rest)
     | '"' :: rest =>
       (match parseStrAux rest "" with
        | some (s, r) => some (JSVal.str s, r)
        | none => none)
     | '[' :: rest =>
       (match skipWs rest with
        | ']' :: r2 => some (JSVal.arr [], r2)
        | r2 => parseCore fuel (PMode.elems []) r2)
     | '-' :: rest =>
       (match parseNumber rest with
        | some (n, r) => some (JSVal.num (-(n : Int)), r)
        | none => none)
     | c :: rest =>
       if c = lbrace then
         match skipWs rest with
         | c2 :: r2 =>
           if c2 = rbrace then some (JSVal.obj [], r2)
           else parseCore fuel (PMode.members []) (c2 :: r2)
         | [] => none
       else if c.isDigit then
         match parseNumber (c :: rest) with
         | some (n, r) => some (JSVal.num (n : Int), r)
         | none => none
       else none
     | [] => none)
  | fuel + 1, PMode.elems acc, cs =>
    (match parseCore fuel PMode.val cs with
     | none => none
     | some (v, rest) =>
       match skipWs rest with
       | [] => none
       | c :: r2 =>
         if c = ',' then parseCore fuel (PMode.elems (acc ++ [v])) r2
         else if c = ']' then some (JSVal.arr (acc ++ [v]), r2)
         else none)
  | fuel + 1, PMode.members acc, cs =>
    (match skipWs cs with
     | [] => none
     | c :: rest =>
       if c = '"' then
         match parseStrAux rest "" with
         | none => none
         | some (k, r1) =>
           match skipWs r1 with
           | [] => none
           | c2 :: r2 =>
             if c2 = ':' then
               match parseCore fuel PMode.val r2 with
               | none => none
               | some (v, r3) =>
                 match skipWs r3 with
                 | [] => none
                 | c3 :: r4 =>
                   if c3 = ',' then parseCore fuel (PMode.members (acc ++ [(k, v)])) r4
                   else if c3 = rbrace then some (JSVal.obj (acc ++ [(k, v)]), r4)
                   else none
             else none
       else none)

/-- `JSON.parse` model: read one value and require only whitespace to
follow; any failure (including trailing garbage) is `none`, modelling the
thrown `SyntaxError`. -/
def jsonParse (s : String) : Option JSVal :=
  let cs := s.toList
  match parseCore (2 * cs.length + 2) PMode.val cs with
  | some (v, rest) => if (skipWs rest).isEmpty then some v else none
  | none => none

/-- `parseMessage` (source lines 32–49): strings, `Blob`s and
`ArrayBuffer`s are decoded to text and `JSON.parse`d; any other value maps
to `null`.  The `catch` clause returns the ORIGINAL `data` value — not
`null` — so an unparseable payload propagates as the raw string / `Blob` /
`ArrayBuffer`.  (In the source the function is `async` because `Blob.text()`
is; the awaited result is modelled directly.) -/
def parseMessage : JSVal → JSVal
  | JSVal.str s =>
    (match jsonParse s with
     | some v => v
     | none => JSVal.str s)
  | JSVal.blob c =>
    (match jsonParse c with
     | some v => v
     | none => JSVal.blob c)
  | JSVal.buffer c =>
    (match jsonParse c with
     | some v => v
     | none => JSVal.buffer c)
  | _ => JSVal.null

/-- The body of `ws.onmessage` after the stale-handle guard (source lines
149–168), as a function from the parsed message to the value published to
the telemetry cache (`none` = nothing published, no consumer callback):
pong responses are dropped; a `type = "telemetry"` envelope with truthy
`data` is unwrapped; the resulting value is published only if truthy. -/
def classifyPublish (msg : JSVal) : Option JSVal :=
  if isStr msg "pong" || isStr (jsOptGet msg "type") "pong" then none
  else
    let telemetryData :=
      if isStr (jsOptGet msg "type") "telemetry" && truthy (jsOptGet msg "data") then
        jsOptGet msg "data"
      else msg
    if truthy telemetryData then some telemetryData else none

/-- Full inbound-frame handling for one raw payload: decode, then classify
and pick the published value. -/
def handleMessage (data : JSVal) : Option JSVal :=
  classifyPublish (parseMessage data)

/-- Backoff delay (source line 204):
`Math.min(1000 * Math.pow(2, currentAttempt - 1), 30000)`.
Modelled on `Nat` (the JS doubles are exact for every value below the cap,
and past the cap `min` clamps identically, including at `Infinity`). -/
def delay (n : Nat) : Nat :=
  min (1000 * 2 ^ (n - 1)) 30000

/- ### The hook's state

React refs and state setters of the hook, flattened into one record.
`wsRef` holds the identity of the current WebSocket as a numeric handle
(fresh handles are drawn from `nextWsId`); `reconnectTimer` records a
pending backoff `setTimeout` together with its delay in milliseconds;
`pingInterval` records whether the keepalive `setInterval` is armed;
`socketsCreated` counts executions of `new WebSocket(wsUrl)`, i.e. transport
connection attempts.  URL construction (lines 117–120) is not modelled: it
has no observable effect on any state field. -/
structure HookState where
  telemetry : Option JSVal
  isConnected : Bool
  error : Option String
  reconnectAttempt : Nat
  wsRef : Option Nat
  shouldReconnect : Bool
  reconnectTimer : Option Nat
  pingInterval : Bool
  connectionAttempt : Nat
  mounted : Bool
  nextWsId : Nat
  socketsCreated : Nat

/-- The hook's state right after mount: refs start as
`shouldReconnectRef = true`, `connectionAttemptRef = 0`, `mountedRef = true`,
all React state at its `useState` initial value. -/
def initialState : HookState :=
  { telemetry := none
    isConnected := false
    error := none
    reconnectAttempt := 0
    wsRef := none
    shouldReconnect := true
    reconnectTimer := none
    pingInterval := false
    connectionAttempt := 0
    mounted := true
    nextWsId := 0
    socketsCreated := 0 }

/-- `cleanupWebSocket` (source lines 51–94).  Nulling the socket's four
handlers and closing it is modelled by dropping `wsRef`: with the reference
gone, every later event of that handle fails the `ws !== wsRef.current`
guard, which has the same observable effect as the removed handlers. -/
def cleanupWebSocket (clearTelemetry disableReconnect : Bool) (s : HookState) : HookState :=
  let s1 := if disableReconnect then { s with shouldReconnect := false } else s
  let s2 := { s1 with
    reconnectTimer := none
    pingInterval := false
    wsRef := none
    isConnected := false }
  let s3 := if clearTelemetry then { s2 with telemetry := none, error := none } else s2
  { s3 with reconnectAttempt := 0 }

/-- `disconnectWebSocket` (source lines 96–99): cleanup with the default
options `clearTelemetry = true`, `disableReconnect = true`. -/
def disconnectWebSocket (s : HookState) : HookState :=
  cleanupWebSocket true true s

/-- `connectWebSocket` (source lines 101–220), up to installing the event
handlers.  `enabled` is the hook option captured by the closure; `token` is
the value returned by the external token provider `getToken()`.  When the
token is absent the function sets the error and returns without constructing
a WebSocket; otherwise `new WebSocket(wsUrl)` is modelled as allocating a
fresh handle (the constructor-throw path, lines 217–219, only logs). -/
def connectWebSocket (enabled : Bool) (token : Option String) (s : HookState) : HookState :=
  if enabled = true ∧ s.mounted = true then
    let s1 := cleanupWebSocket false false s
    let s2 := { s1 with
      shouldReconnect := true
      connectionAttempt := s1.connectionAttempt + 1 }
    match token with
    | none => { s2 with error := some "Not authenticated" }
    | some _ => { s2 with
        wsRef := some s2.nextWsId
        nextWsId := s2.nextWsId + 1
        socketsCreated := s2.socketsCreated + 1 }
  else s

/-- `ws.onopen` (source lines 128–144) for the socket with handle `h`.  The
guard `!mountedRef.current || ws !== wsRef.current` is written in the
positive: the body runs only when mounted and `h` is the current handle. -/
def onOpen (h : Nat) (s : HookState) : HookState :=
  if s.mounted = true ∧ s.wsRef = some h then
    { s with
      isConnected := true
      error := none
      reconnectAttempt := 0
      pingInterval := true }
  else s

/-- `ws.onmessage` (source lines 146–172) for the socket with handle `h` and
raw payload `data`.  When `handleMessage` yields a value it is both stored
via `setTelemetry` and passed to the `onTelemetry` consumer callback; the
surrounding `try`/`catch` only logs. -/
def onMessage (h : Nat) (data : JSVal) (s : HookState) : HookState :=
  if s.mounted = true ∧ s.wsRef = some h then
    match handleMessage data with
    | some v => { s with telemetry := some v }
    | none => s
  else s

/-- `ws.onerror` (source lines 174–178) for the socket with handle `h`. -/
def onError (h : Nat) (s : HookState) : HookState :=
  if s.mounted = true ∧ s.wsRef = some h then
    { s with error := some "WebSocket connection error" }
  else s

/-- `ws.onclose` (source lines 180–216) for the socket with handle `h`
closing with code `code`.  The closure-captured `currentAttempt` equals
`connectionAttemptRef.current` at handler-creation time; since the counter
is only changed by `connectWebSocket` (which installs a new current handle)
and by `manualReconnect` (which drops the current handle first), the two
values coincide whenever `h` is still the current handle, so the captured
value is read from `s.connectionAttempt`. -/
def onClose (h code : Nat) (s : HookState) : HookState :=
  if s.mounted = true ∧ s.wsRef = some h then
    let s1 := { s with isConnected := false, pingInterval := false }
    if s1.shouldReconnect = false ∨ code = 1000 ∨ code = 1008 then s1
    else if 10 ≤ s1.connectionAttempt then
      { s1 with error := some "Max reconnection attempts reached" }
    else
      { s1 with
        reconnectAttempt := s1.connectionAttempt
        reconnectTimer := some (delay s1.connectionAttempt) }
  else s

/-- The pending backoff `setTimeout` fires (source lines 211–215): only a
scheduled timer can fire; it re-checks mount and reconnect permission before
calling `connectWebSocket`. -/
def retryFires (enabled : Bool) (token : Option String) (s : HookState) : HookState :=
  if s.reconnectTimer ≠ none then
    let s1 := { s with reconnectTimer := none }
    if s1.mounted = true ∧ s1.shouldReconnect = true then
      connectWebSocket enabled token s1
    else s1
  else s

/-- `manualReconnect` (source lines 244–254), immediate part: reset the
attempt counter, then disconnect.  The 500 ms settling `setTimeout` is the
separate step `manualReconnectSettle`. -/
def manualReconnect (enabled : Bool) (s : HookState) : HookState :=
  if enabled = true then
    disconnectWebSocket { s with connectionAttempt := 0 }
  else s

/-- The 500 ms settling timer from `manualReconnect` fires (source lines
249–253). -/
def manualReconnectSettle (enabled : Bool) (token : Option String) (s : HookState) : HookState :=
  if s.mounted = true then connectWebSocket enabled token s else s

/- ### A concrete execution trace: three retryable failures, then a
successful open, then one more retryable failure.  Handles are allocated
0, 1, 2, 3 in order; every close uses the retryable code 1006 and each
scheduled backoff timer fires. -/

/-- State after three consecutive failed connection attempts (handles 0–2,
close code 1006, each retry timer fired) and a fourth connection attempt
(handle 3) in flight. -/
def c3PriorFailures : HookState :=
  retryFires true (some "tok")
    (onClose 2 1006
      (retryFires true (some "tok")
        (onClose 1 1006
          (retryFires true (some "tok")
            (onClose 0 1006
              (connectWebSocket true (some "tok") initialState))))))

/-- State after the fourth attempt's socket (handle 3) opens
successfully. -/
def c3AfterOpen : HookState :=
  onOpen 3 c3PriorFailures

/-- State after the now-open session closes unexpectedly with retryable
code 1006. -/
def c3AfterNextFailure : HookState :=
  onClose 3 1006 c3AfterOpen

/-- Claim C1: after a terminal close event on the current session (current
handle, still mounted, no retry already pending), a reconnect is scheduled
iff reconnection is still permitted, the close code is neither 1000 nor
1008, and the current attempt number is below 10; on a retryable close with
attempt number at least 10 the client reports "Max reconnection attempts
reached" and schedules nothing; closes with code 1000 or 1008 never
schedule a retry. -/
theorem onClose_retry_policy (s : HookState) (h code : Nat)
    (hm : s.mounted = true) (hw : s.wsRef = some h) (ht : s.reconnectTimer = none) :
    ((onClose h code s).reconnectTimer ≠ none ↔
      (s.shouldReconnect = true ∧ code ≠ 1000 ∧ code ≠ 1008 ∧ s.connectionAttempt < 10)) ∧
    (s.shouldReconnect = true → code ≠ 1000 → code ≠ 1008 → 10 ≤ s.connectionAttempt →
      (onClose h code s).error = some "Max reconnection attempts reached" ∧
      (onClose h code s).reconnectTimer = none) ∧
    ((code = 1000 ∨ code = 1008) → (onClose h code s).reconnectTimer = none) := by
  simp only [onClose, hm, hw, and_self, if_true]
  split_ifs with h1 h2
  · rcases h1 with h1 | h1 | h1 <;> simp [ht, h1]
  · push_neg at h1
    obtain ⟨hsr, hc1, hc2⟩ := h1
    refine ⟨?_, ?_, ?_⟩
    · simp [ht]
      intros
      omega
    · intro _ _ _ _
      exact ⟨rfl, ht⟩
    · intro _
      exact ht
  · push_neg at h1
    obtain ⟨hsr, hc1, hc2⟩ := h1
    simp only [Bool.not_eq_false] at hsr
    refine ⟨?_, ?_, ?_⟩
    · constructor
      · intro _
        exact ⟨hsr, hc1, hc2, by omega⟩
      · intro _
        simp
    · intro _ _ _ hge
      omega
    · intro hc
      rcases hc with hc | hc
      · exact absurd hc hc1
      · exact absurd hc hc2

/-- Witness for C1: a retryable close (code 1006) on the current handle of
a freshly mounted client. -/
theorem onClose_retry_policy_witness :
    ({ initialState with wsRef := some 0 } : HookState).mounted = true ∧
    ({ initialState with wsRef := some 0 } : HookState).wsRef = some 0 ∧
    ({ initialState with wsRef := some 0 } : HookState).reconnectTimer = none ∧
    (((onClose 0 1006 { initialState with wsRef := some 0 }).reconnectTimer ≠ none ↔
       (({ initialState with wsRef := some 0 } : HookState).shouldReconnect = true ∧
        (1006 : Nat) ≠ 1000 ∧ (1006 : Nat) ≠ 1008 ∧
        ({ initialState with wsRef := some 0 } : HookState).connectionAttempt < 10)) ∧
     (({ initialState with wsRef := some 0 } : HookState).shouldReconnect = true →
       (1006 : Nat) ≠ 1000 → (1006 : Nat) ≠ 1008 →
       10 ≤ ({ initialState with wsRef := some 0 } : HookState).connectionAttempt →
       (onClose 0 1006 { initialState with wsRef := some 0 }).error
         = some "Max reconnection attempts reached" ∧
       (onClose 0 1006 { initialState with wsRef := some 0 }).reconnectTimer = none) ∧
     (((1006 : Nat) = 1000 ∨ (1006 : Nat) = 1008) →
       (onClose 0 1006 { initialState with wsRef := some 0 }).reconnectTimer = none)) :=
  ⟨rfl, rfl, rfl, onClose_retry_policy { initialState with wsRef := some 0 } 0 1006 rfl rfl rfl⟩

/-- Claim C2: the backoff delay is
`delay n = min (1000 * 2 ^ (n - 1)) 30000` milliseconds; it is monotone in
the attempt number, never exceeds 30000, is total on all of `Nat`, and for
every attempt number of at least 6 it clamps to exactly 30000. -/
theorem delay_formula_monotone_capped (n : Nat) (h : 1 ≤ n) :
    delay n = min (1000 * 2 ^ (n - 1)) 30000 ∧
    delay n ≤ delay (n + 1) ∧ delay n ≤ 30000 ∧ (6 ≤ n → delay n = 30000) := by
  refine ⟨rfl, ?_, ?_, ?_⟩
  · unfold delay
    exact min_le_min
      (Nat.mul_le_mul_left _ (Nat.pow_le_pow_right (by norm_num) (by omega))) le_rfl
  · exact min_le_right _ _
  · intro h6
    unfold delay
    refine min_eq_right ?_
    calc (30000 : Nat) ≤ 1000 * 2 ^ 5 := by norm_num
      _ ≤ 1000 * 2 ^ (n - 1) :=
        Nat.mul_le_mul_left _ (Nat.pow_le_pow_right (by norm_num) (by omega))

/-- Witness for C2 at attempt number 7. -/
theorem delay_formula_monotone_capped_witness :
    1 ≤ 7 ∧
    (delay 7 = min (1000 * 2 ^ (7 - 1)) 30000 ∧
     delay 7 ≤ delay (7 + 1) ∧ delay 7 ≤ 30000 ∧ (6 ≤ 7 → delay 7 = 30000)) :=
  ⟨by decide, delay_formula_monotone_capped 7 (by decide)⟩

/-- Claim C3 (code bug, exhibited): after three failed attempts followed by
a successful open of the fourth socket, the displayed `reconnectAttempt`
state does reset to 0, but the backoff counter `connectionAttemptRef` does
not — the next unexpected close schedules `delay 4 = 8000` ms, not
`delay 1 = 1000` ms as the spec's attempt-reset-on-success property
requires. -/
theorem attempt_not_reset_on_open :
    c3AfterOpen.isConnected = true ∧
    c3AfterOpen.reconnectAttempt = 0 ∧
    c3AfterOpen.connectionAttempt = 4 ∧
    c3AfterNextFailure.reconnectTimer = some (delay 4) ∧
    delay 4 = 8000 ∧ delay 1 = 1000 ∧
    c3AfterNextFailure.reconnectTimer ≠ some (delay 1) := by
  refine ⟨rfl, rfl, rfl, rfl, rfl, rfl, ?_⟩
  decide

/-- Claim C4 (counterexample): the text frame "hello" fails `JSON.parse`,
yet it is not dropped — the raw string is published to the telemetry
cache. -/
theorem malformed_frame_published_cex :
    jsonParse "hello" = none ∧
    ({ initialState with wsRef := some 0 } : HookState).telemetry = none ∧
    (onMessage 0 (JSVal.str "hello") { initialState with wsRef := some 0 }).telemetry
      = some (JSVal.str "hello") :=
  ⟨rfl, rfl, rfl⟩

/-- Claim C4 as amended: a text payload that fails to parse is never raised
as an error to the caller, but instead of being classified Ignore it falls
back to the raw string: it is dropped only when that string is the bare
keepalive token "pong" or is empty (falsy); any other malformed text is
published to the cache.  Message handling never changes the error field. -/
theorem malformed_text_fallback (t : String) (hp : jsonParse t = none) :
    (handleMessage (JSVal.str t) = if t = "pong" ∨ t = "" then none else some (JSVal.str t)) ∧
    (∀ (hnd : Nat) (d : JSVal) (s : HookState), (onMessage hnd d s).error = s.error) := by
  constructor
  · simp only [handleMessage, parseMessage, hp]
    simp only [classifyPublish, isStr, jsOptGet, truthy]
    by_cases h1 : t = "pong"
    · simp [h1]
    · by_cases h2 : t = ""
      · simp [h1, h2]
      · simp [h1, h2]
  · intro hnd d s
    unfold onMessage
    split_ifs with hg
    · cases hh : handleMessage d <;> simp [hh]
    · rfl

/-- Witness for the amended C4 at the malformed text "hello". -/
theorem malformed_text_fallback_witness :
    jsonParse "hello" = none ∧
    ((handleMessage (JSVal.str "hello")
        = if "hello" = "pong" ∨ "hello" = "" then none else some (JSVal.str "hello")) ∧
     (∀ (hnd : Nat) (d : JSVal) (s : HookState), (onMessage hnd d s).error = s.error)) :=
  ⟨rfl, malformed_text_fallback "hello" rfl⟩

/-- Claim C5 (counterexample): the bare keepalive token "pong" is dropped
when delivered as text, but when the same bytes arrive as a Blob or an
ArrayBuffer the parse failure returns the raw object, which is truthy and
is published to the telemetry cache — classification depends on the
transport encoding. -/
theorem pong_encoding_dependent_cex :
    handleMessage (JSVal.str "pong") = none ∧
    handleMessage (JSVal.blob "pong") = some (JSVal.blob "pong") ∧
    handleMessage (JSVal.buffer "pong") = some (JSVal.buffer "pong") ∧
    (onMessage 0 (JSVal.blob "pong") { initialState with wsRef := some 0 }).telemetry
      = some (JSVal.blob "pong") :=
  ⟨rfl, rfl, rfl, rfl⟩

/-- Claim C5 as amended: for every logical message whose UTF-8 content
parses as JSON, delivering it as text, Blob or ArrayBuffer yields the same
classification; encoding-independence holds only on the JSON-parseable
fragment (unparseable content falls back to the raw transport value). -/
theorem classify_encoding_independent_on_parse (c : String) (v : JSVal)
    (hp : jsonParse c = some v) :
    handleMessage (JSVal.str c) = classifyPublish v ∧
    handleMessage (JSVal.blob c) = classifyPublish v ∧
    handleMessage (JSVal.buffer c) = classifyPublish v := by
  simp [handleMessage, parseMessage, hp]

/-- Witness for the amended C5 at the JSON content "1". -/
theorem classify_encoding_independent_on_parse_witness :
    jsonParse "1" = some (JSVal.num 1) ∧
    (handleMessage (JSVal.str "1") = classifyPublish (JSVal.num 1) ∧
     handleMessage (JSVal.blob "1") = classifyPublish (JSVal.num 1) ∧
     handleMessage (JSVal.buffer "1") = classifyPublish (JSVal.num 1)) :=
  ⟨rfl, classify_encoding_independent_on_parse "1" (JSVal.num 1) rfl⟩

/-- Claim C6 (counterexample): an envelope with the unrecognized
discriminator "status" is not ignored — the entire envelope is published to
the telemetry cache. -/
theorem unknown_type_published_cex :
    jsonParse "\x7b\"type\":\"status\"\x7d" = some (JSVal.obj [("type", JSVal.str "status")]) ∧
    (onMessage 0 (JSVal.str "\x7b\"type\":\"status\"\x7d") { initialState with wsRef := some 0 }).telemetry
      = some (JSVal.obj [("type", JSVal.str "status")]) :=
  ⟨rfl, rfl⟩

/-- Claim C6 as amended: a structured envelope whose `type` discriminator
is neither "telemetry" nor "pong" is not dropped; the whole (truthy)
envelope object is published to the cache and notified to the consumer
(whole-value fallback). -/
theorem unknown_type_whole_value_fallback (fields : List (String × JSVal)) (t : String)
    (ht : jsOptGet (JSVal.obj fields) "type" = JSVal.str t)
    (h1 : t ≠ "pong") (h2 : t ≠ "telemetry") :
    classifyPublish (JSVal.obj fields) = some (JSVal.obj fields) := by
  simp [classifyPublish, isStr, ht, truthy, h1, h2]

/-- Witness for the amended C6 at the envelope with type "status". -/
theorem unknown_type_whole_value_fallback_witness :
    jsOptGet (JSVal.obj [("type", JSVal.str "status")]) "type" = JSVal.str "status" ∧
    ("status" : String) ≠ "pong" ∧ ("status" : String) ≠ "telemetry" ∧
    classifyPublish (JSVal.obj [("type", JSVal.str "status")])
      = some (JSVal.obj [("type", JSVal.str "status")]) :=
  ⟨rfl, by decide, by decide,
    unknown_type_whole_value_fallback [("type", JSVal.str "status")] "status" rfl
      (by decide) (by decide)⟩

/-- Claim C7: when the token provider returns no token while a connection
attempt starts (enabled, mounted), no transport connection is attempted, no
retry is scheduled, and the status reports the error "Not
authenticated". -/
theorem no_token_no_transport (s : HookState) (hm : s.mounted = true) :
    (connectWebSocket true none s).error = some "Not authenticated" ∧
    (connectWebSocket true none s).wsRef = none ∧
    (connectWebSocket true none s).socketsCreated = s.socketsCreated ∧
    (connectWebSocket true none s).reconnectTimer = none := by
  simp [connectWebSocket, cleanupWebSocket, hm]

/-- Witness for C7 at the freshly mounted state. -/
theorem no_token_no_transport_witness :
    initialState.mounted = true ∧
    ((connectWebSocket true none initialState).error = some "Not authenticated" ∧
     (connectWebSocket true none initialState).wsRef = none ∧
     (connectWebSocket true none initialState).socketsCreated = initialState.socketsCreated ∧
     (connectWebSocket true none initialState).reconnectTimer = none) :=
  ⟨rfl, no_token_no_transport initialState rfl⟩

/-- Claim C8: once a session handle has been superseded (it is no longer
the current `wsRef`), every event delivered to it — open, message, error,
close — leaves the entire hook state unchanged: neither the reconnect state
nor the telemetry cache is mutated. -/
theorem stale_handle_ignored (s : HookState) (h : Nat) (data : JSVal) (code : Nat)
    (hst : s.wsRef ≠ some h) :
    onOpen h s = s ∧ onMessage h data s = s ∧ onError h s = s ∧ onClose h code s = s := by
  refine ⟨?_, ?_, ?_, ?_⟩ <;> simp [onOpen, onMessage, onError, onClose, hst]

/-- Witness for C8: events on stale handle 0 while handle 5 is current. -/
theorem stale_handle_ignored_witness :
    ({ initialState with wsRef := some 5 } : HookState).wsRef ≠ some 0 ∧
    (onOpen 0 { initialState with wsRef := some 5 } = { initialState with wsRef := some 5 } ∧
     onMessage 0 JSVal.null { initialState with wsRef := some 5 } = { initialState with wsRef := some 5 } ∧
     onError 0 { initialState with wsRef := some 5 } = { initialState with wsRef := some 5 } ∧
     onClose 0 1006 { initialState with wsRef := some 5 } = { initialState with wsRef := some 5 }) :=
  ⟨by decide, stale_handle_ignored { initialState with wsRef := some 5 } 0 JSVal.null 1006 (by decide)⟩

/-- Claim C9: from any mounted state — in particular after any number of
prior failed attempts — `manualReconnect` resets the attempt counter and,
once its settling timer fires, starts a fresh connection whose attempt
number is 1; the next failure on that connection therefore schedules
`delay 1 = 1000` ms. -/
theorem manual_reconnect_resets_backoff (s : HookState) (tk : String) (hm : s.mounted = true) :
    (manualReconnectSettle true (some tk) (manualReconnect true s)).connectionAttempt = 1 ∧
    (onClose s.nextWsId 1006 (manualReconnectSettle true (some tk) (manualReconnect true s))).reconnectTimer
      = some (delay 1) ∧
    delay 1 = 1000 := by
  simp [manualReconnect, manualReconnectSettle, disconnectWebSocket, cleanupWebSocket,
    connectWebSocket, onClose, hm, delay]

/-- Witness for C9 at the freshly mounted state. -/
theorem manual_reconnect_resets_backoff_witness :
    initialState.mounted = true ∧
    ((manualReconnectSettle true (some "t") (manualReconnect true initialState)).connectionAttempt = 1 ∧
     (onClose initialState.nextWsId 1006
        (manualReconnectSettle true (some "t") (manualReconnect true initialState))).reconnectTimer
       = some (delay 1) ∧
     delay 1 = 1000) :=
  ⟨rfl, manual_reconnect_resets_backoff initialState "t" rfl⟩

/-- Claim C10: for a decoded envelope with type "telemetry", the `data`
body is unwrapped and published exactly when it is truthy; when `data` is
falsy (0, empty string, false, null, or absent) the entire envelope object
— `type` field included — is published to the cache instead. -/
theorem telemetry_unwrap_truthy_data (fields : List (String × JSVal))
    (ht : jsOptGet (JSVal.obj fields) "type" = JSVal.str "telemetry") :
    (truthy (jsOptGet (JSVal.obj fields) "data") = true →
      classifyPublish (JSVal.obj fields) = some (jsOptGet (JSVal.obj fields) "data")) ∧
    (truthy (jsOptGet (JSVal.obj fields) "data") = false →
      classifyPublish (JSVal.obj fields) = some (JSVal.obj fields)) := by
  constructor
  · intro hd
    simp [classifyPublish, isStr, ht, hd]
  · intro hd
    simp [classifyPublish, isStr, ht, hd]
    rfl

/-- Witness for C10 at a telemetry envelope with truthy data 7. -/
theorem telemetry_unwrap_truthy_data_witness :
    jsOptGet (JSVal.obj [("type", JSVal.str "telemetry"), ("data", JSVal.num 7)]) "type"
      = JSVal.str "telemetry" ∧
    ((truthy (jsOptGet (JSVal.obj [("type", JSVal.str "telemetry"), ("data", JSVal.num 7)]) "data") = true →
      classifyPublish (JSVal.obj [("type", JSVal.str "telemetry"), ("data", JSVal.num 7)])
        = some (jsOptGet (JSVal.obj [("type", JSVal.str "telemetry"), ("data", JSVal.num 7)]) "data")) ∧
     (truthy (jsOptGet (JSVal.obj [("type", JSVal.str "telemetry"), ("data", JSVal.num 7)]) "data") = false →
      classifyPublish (JSVal.obj [("type", JSVal.str "telemetry"), ("data", JSVal.num 7)])
        = some (JSVal.obj [("type", JSVal.str "telemetry"), ("data", JSVal.num 7)]))) :=
  ⟨rfl, telemetry_unwrap_truthy_data [("type", JSVal.str "telemetry"), ("data", JSVal.num 7)] rfl⟩

end TelemetryWS
